import Mathlib

/-!
Verification of the credential and session lifecycle core of the
fastapi-authen service: a shallow embedding of the password hasher, the
JWT token codec, the session store, the TOTP MFA engine with backup
codes, and the password-reset flow, together with theorems settling the
specified properties.

Database rows (app/models/user.py) are Lean structures; the database is
a record of lists of rows; each endpoint or service method is a function
from the database (plus the request data and the externally supplied
nondeterminism: current time, freshly generated random tokens, salts and
row ids) to a result paired with the successor database.  Times are
integers (seconds); machine randomness is passed in as parameters.
-/

namespace FastapiAuthen

/-- Token kinds carried in the JWT type claim (app/core/security.py
issues tokens with type access or refresh). -/
inductive TokenType
  | access
  | refresh
deriving DecidableEq, Repr

/-- Modelled from the spec: the TokenCodec of app/core/security.py (the
module itself is not under src/; only its tests and callers are).  A
token is tamper-evident: a well-signed token determines its subject
string, its kind and its expiry instant, and anything else (malformed or
tampered input) carries no recoverable payload. -/
inductive Token
  | signed (sub : String) (type : TokenType) (exp : Int)
  | malformed (raw : String)
deriving DecidableEq, Repr

/-- ACCESS_TOKEN_EXPIRE_MINUTES = 30 (app/core/config.py line 13). -/
def ACCESS_TOKEN_EXPIRE_MINUTES : Int := 30

/-- REFRESH_TOKEN_EXPIRE_DAYS = 7 (app/core/config.py line 14). -/
def REFRESH_TOKEN_EXPIRE_DAYS : Int := 7

/-- Modelled from the spec: create_access_token of app/core/security.py
(module absent from src/).  Encodes str(subject), type access, and
expiry now + expires_delta (default 30 minutes), signed with the
process-wide key. -/
def create_access_token (subject : String) (now : Int)
    (expires_delta : Option Int := none) : Token :=
  Token.signed subject TokenType.access
    (now + expires_delta.getD (ACCESS_TOKEN_EXPIRE_MINUTES * 60))

/-- Modelled from the spec: create_refresh_token of
app/core/security.py (module absent from src/).  Encodes str(subject),
type refresh, and expiry now + expires_delta (default 7 days). -/
def create_refresh_token (subject : String) (now : Int)
    (expires_delta : Option Int := none) : Token :=
  Token.signed subject TokenType.refresh
    (now + expires_delta.getD (REFRESH_TOKEN_EXPIRE_DAYS * 86400))

/-- Modelled from the spec: verify_token of app/core/security.py
(module absent from src/).  Fails on a malformed or tampered token, on a
kind different from the expected one, and on an expired token (the
expired-token unit test issues with a negative delta and expects
failure, so success requires now strictly below the expiry); on success
it returns the encoded subject string. -/
def verify_token (token : Token) (token_type : TokenType) (now : Int) :
    Option String :=
  match token with
  | Token.signed sub t exp =>
      if t = token_type ∧ now < exp then some sub else none
  | Token.malformed _ => none

/-- A bcrypt digest records the salt it was produced with. -/
structure Digest where
  salt : Nat
  body : String
deriving DecidableEq, Repr

/-- Modelled from the spec: get_password_hash of app/core/security.py
(module absent from src/).  A salted one-way hash, idealised as
collision-free: the digest determines the salt and, for the purpose of
verification, the hashed plaintext.  The fresh random salt of each call
is passed in explicitly. -/
def get_password_hash (password : String) (salt : Nat) : Digest :=
  Digest.mk salt password

/-- Modelled from the spec: verify_password of app/core/security.py
(module absent from src/).  Recomputes the hash with the salt recorded in the digest
and compares; in the collision-free idealisation it accepts exactly the
hashed plaintext. -/
def verify_password (plain : String) (digest : Digest) : Bool :=
  plain == digest.body

/-- Modelled from the spec: the RFC 6238 TOTP code derivation of the
pyotp library (outside the repository), idealised as an injective
function of the shared secret and the 30-second time step. -/
def totpCode (secret : String) (step : Int) : String :=
  secret ++ "#" ++ toString step

/-- Time step of an instant: 30-second windows (RFC 6238 default used
by pyotp). -/
def timeStep (now : Int) : Int := now / 30

/-- Modelled from the spec: pyotp TOTP.verify with valid_window = 1 —
the supplied code is compared against the codes of the current step and
the immediately adjacent steps. -/
def totpVerify (secret code : String) (now : Int) : Bool :=
  [(-1 : Int), 0, 1].any fun d => code == totpCode secret (timeStep now + d)

/-- Row of the users table (app/models/user.py lines 6-22). -/
structure User where
  id : Nat
  email : String
  username : String
  hashed_password : Digest
  is_active : Bool
  is_verified : Bool
  is_superuser : Bool
deriving DecidableEq, Repr

/-- Row of the user_sessions table (app/models/user.py lines 24-38). -/
structure UserSession where
  id : Nat
  user_id : Nat
  session_token : String
  refresh_token : String
  device_info : Option String
  ip_address : Option String
  is_active : Bool
  expires_at : Int
deriving DecidableEq, Repr

/-- Row of the mfa_settings table (app/models/user.py lines 40-51).
The backup_codes Text column holds a JSON-encoded list of strings;
none models a NULL or empty-string column (falsy in Python), while
some l models the string json.dumps l — in particular some [] models
the stored text of an empty list, which is truthy. -/
structure MFASettings where
  id : Nat
  user_id : Nat
  totp_secret : String
  backup_codes : Option (List String)
  is_enabled : Bool
deriving DecidableEq, Repr

/-- Row of the password_reset_tokens table (app/models/user.py lines
69-80). -/
structure PasswordResetToken where
  id : Nat
  user_id : Nat
  token : String
  expires_at : Int
  is_used : Bool
deriving DecidableEq, Repr

/-- The persistent state: the tables the claims touch. -/
structure DB where
  users : List User
  sessions : List UserSession
  mfa : List MFASettings
  resetTokens : List PasswordResetToken
deriving DecidableEq, Repr

/-- Replace the first element satisfying p by its image under f,
leaving everything else unchanged — the effect of mutating the row
returned by query(...).filter(...).first() and committing. -/
def updateFirst (p : α → Bool) (f : α → α) : List α → List α
  | [] => []
  | x :: xs => if p x then f x :: xs else x :: updateFirst p f xs

/-- Filter of a session lookup by session_token. -/
def sessionMatches (token : String) : UserSession → Bool :=
  fun s => s.session_token == token

/-- Row mutation session.is_active = False. -/
def deactivate (s : UserSession) : UserSession :=
  { s with is_active := false }

/-- Filter of a user lookup by id. -/
def userIdMatches (uid : Nat) : User → Bool :=
  fun u => u.id == uid

/-- Row mutation user.hashed_password = digest. -/
def setHash (digest : Digest) (u : User) : User :=
  { u with hashed_password := digest }

/-- Filter of an mfa_settings lookup by user_id. -/
def mfaUserMatches (uid : Nat) : MFASettings → Bool :=
  fun m => m.user_id == uid

/-- Row mutation mfa_settings.is_enabled = True. -/
def enableRow (m : MFASettings) : MFASettings :=
  { m with is_enabled := true }

/-- Row mutation mfa_settings.backup_codes = json.dumps(codes). -/
def setBackupCodes (codes : List String) (m : MFASettings) : MFASettings :=
  { m with backup_codes := some codes }

/-- Row mutation reset_token.is_used = True. -/
def markUsed (r : PasswordResetToken) : PasswordResetToken :=
  { r with is_used := true }

/-- The user.mfa_settings relationship (uselist=False): the first
mfa_settings row whose user_id matches. -/
def mfaSettingsOf (db : DB) (uid : Nat) : Option MFASettings :=
  db.mfa.find? (mfaUserMatches uid)

/-- AuthService.verify_mfa (app/services/auth.py lines 93-99): returns
false when the user has no mfa_settings row or when is_enabled is
false; otherwise checks the code against the stored TOTP secret with
valid_window = 1. -/
def verify_mfa (db : DB) (user : User) (code : String) (now : Int) : Bool :=
  match mfaSettingsOf db user.id with
  | none => false
  | some m =>
      if !m.is_enabled then false
      else totpVerify m.totp_secret code now

/-- Outcome of the POST /mfa/verify endpoint. -/
inductive MfaVerifyResult
  | enabled
  | invalidMFACode
deriving DecidableEq, Repr

/-- POST /mfa/verify (app/api/v1/endpoints/mfa.py lines 45-68): raises
400 Invalid MFA code when AuthService.verify_mfa rejects; otherwise
flips is_enabled to true on the mfa_settings row of the user (when one
exists) and reports success. -/
def verify_mfa_endpoint (db : DB) (user : User) (code : String) (now : Int) :
    MfaVerifyResult × DB :=
  if verify_mfa db user code now then
    match db.mfa.find? (mfaUserMatches user.id) with
    | some _ =>
        (MfaVerifyResult.enabled,
         { db with mfa := updateFirst (mfaUserMatches user.id) enableRow db.mfa })
    | none => (MfaVerifyResult.enabled, db)
  else (MfaVerifyResult.invalidMFACode, db)

/-- POST /mfa/setup (app/api/v1/endpoints/mfa.py lines 18-43): persists
a new disabled mfa_settings row for the current user — without checking
whether one already exists — and returns the secret and the ten backup
codes.  The freshly generated secret, codes and row id are passed in;
the QR data URL is presentational and omitted. -/
def setup_mfa_endpoint (db : DB) (user : User) (newId : Nat)
    (secret : String) (backupCodes : List String) :
    (String × List String) × DB :=
  ((secret, backupCodes),
   { db with mfa := db.mfa ++
       [MFASettings.mk newId user.id secret (some backupCodes) false] })

/-- Outcome of the POST /mfa/verify-backup-code endpoint. -/
inductive BackupCodeResult
  | ok
  | notFound
  | invalidBackupCode
deriving DecidableEq, Repr

/-- POST /mfa/verify-backup-code (app/api/v1/endpoints/mfa.py lines
132-162): 404 when the user has no mfa_settings row or its
backup_codes column is falsy (NULL or empty string — note the stored
JSON text of an empty list is truthy and does not take this branch);
400 when the code is not in the decoded list; otherwise removes the
first occurrence of the code from the list and persists it. -/
def verify_backup_code (db : DB) (user : User) (code : String) :
    BackupCodeResult × DB :=
  match db.mfa.find? (mfaUserMatches user.id) with
  | none => (BackupCodeResult.notFound, db)
  | some m =>
      match m.backup_codes with
      | none => (BackupCodeResult.notFound, db)
      | some codes =>
          if code ∈ codes then
            (BackupCodeResult.ok,
             { db with mfa := updateFirst (mfaUserMatches user.id)
                                (setBackupCodes (codes.erase code)) db.mfa })
          else (BackupCodeResult.invalidBackupCode, db)

/-- AuthService.revoke_session (app/services/auth.py lines 65-73):
looks up the first session row by session_token — with no filter on
is_active or expiry — and, when found, sets is_active to false and
returns true; otherwise returns false. -/
def revoke_session (db : DB) (token : String) : Bool × DB :=
  if db.sessions.any (sessionMatches token) then
    (true,
     { db with sessions := updateFirst (sessionMatches token) deactivate db.sessions })
  else (false, db)

/-- POST /logout (app/api/v1/endpoints/auth.py lines 64-75): revokes
the session named by the presented bearer token; a false return
surfaces as 400 Could not revoke session. -/
def logout_endpoint (db : DB) (token : String) : Bool × DB :=
  revoke_session db token

/-- POST /reset-password (app/api/v1/endpoints/auth.py lines 98-129):
looks up the account by email; when none exists it returns a generic
message and persists nothing; when one exists it persists a reset
token expiring in one hour and returns a response that also carries the
raw token and a reset link.  The response is modelled as the list of
key/value pairs of the returned JSON object; the fresh random token
value and row id are passed in. -/
def reset_password_endpoint (db : DB) (email : String)
    (tokenValue : String) (newId : Nat) (now : Int) :
    List (String × String) × DB :=
  match db.users.find? (fun u => u.email == email) with
  | none =>
      ([("message", "If the email exists, a password reset link has been sent")],
       db)
  | some u =>
      ([("message", "Password reset email sent"),
        ("reset_token", tokenValue),
        ("reset_link", "/reset-password?token=" ++ tokenValue)],
       { db with resetTokens := db.resetTokens ++
           [PasswordResetToken.mk newId u.id tokenValue (now + 3600) false] })

/-- The filter of the reset-token lookup in POST /reset-password/confirm:
matching token value, not yet used, not yet expired. -/
def resetPred (token : String) (now : Int) : PasswordResetToken → Bool :=
  fun r => r.token == token && !r.is_used && decide (now < r.expires_at)

/-- Outcome of the POST /reset-password/confirm endpoint. -/
inductive ConfirmResult
  | ok
  | invalidOrExpiredToken
  | userNotFound
deriving DecidableEq, Repr

/-- POST /reset-password/confirm (app/api/v1/endpoints/auth.py lines
131-166): finds an unused, unexpired reset-token row by token value
(400 Invalid or expired reset token when none matches), finds its
account (404 when missing), then replaces the stored hash of the account
with the hash of the new password and marks the token used, committed
together.  The fresh salt of the rehash is passed in. -/
def confirm_password_reset (db : DB) (token newPassword : String)
    (now : Int) (salt : Nat) : ConfirmResult × DB :=
  match db.resetTokens.find? (resetPred token now) with
  | none => (ConfirmResult.invalidOrExpiredToken, db)
  | some r =>
      match db.users.find? (userIdMatches r.user_id) with
      | none => (ConfirmResult.userNotFound, db)
      | some _ =>
          (ConfirmResult.ok,
           { db with
               users := updateFirst (userIdMatches r.user_id)
                 (setHash (get_password_hash newPassword salt)) db.users,
               resetTokens := updateFirst (resetPred token now)
                 markUsed db.resetTokens })

/-- Auxiliary accumulator loop of parseNat?. -/
def parseNatGo : List Char → Nat → Option Nat
  | [], acc => some acc
  | c :: cs, acc =>
      if c.isDigit then parseNatGo cs (acc * 10 + (c.toNat - 48)) else none

/-- Decimal parse of a nonnegative integer string — the int(...) call
of the refresh endpoint applied to a JWT subject (which the codec
writes as str(user.id)). -/
def parseNat? (s : String) : Option Nat :=
  if s.isEmpty then none else parseNatGo s.toList 0

/-- Outcome of the POST /refresh endpoint. -/
inductive RefreshResult
  | ok (access refresh : Token)
  | invalidToken
  | invalidSubject
  | userNotFoundOrInactive
deriving DecidableEq, Repr

/-- POST /refresh (app/api/v1/endpoints/auth.py lines 168-200):
verifies the presented token as a refresh JWT — consulting no session
row — parses its subject as an integer id, requires an existing active
account, and issues a fresh access/refresh token pair. -/
def refresh_endpoint (db : DB) (token : Token) (now : Int) : RefreshResult :=
  match verify_token token TokenType.refresh now with
  | none => RefreshResult.invalidToken
  | some s =>
      match parseNat? s with
      | none => RefreshResult.invalidSubject
      | some uid =>
          match db.users.find? (userIdMatches uid) with
          | none => RefreshResult.userNotFoundOrInactive
          | some u =>
              if u.is_active then
                RefreshResult.ok (create_access_token (toString u.id) now none)
                  (create_refresh_token (toString u.id) now none)
              else RefreshResult.userNotFoundOrInactive

end FastapiAuthen

namespace FastapiAuthen

/-- Prepending elements that all fail the predicate does not change the
result of find?. -/
theorem find?_append_left_none {α} {q : α → Bool} {l1 : List α}
    (h : ∀ x ∈ l1, q x = false) (l2 : List α) :
    (l1 ++ l2).find? q = l2.find? q := by
  induction l1 with
  | nil => simp
  | cons a t ih =>
      have ha : ¬(q a = true) := by
        simp [h a (List.mem_cons_self a t)]
      rw [List.cons_append, List.find?_cons_of_neg _ ha]
      exact ih fun x hx => h x (List.mem_cons_of_mem a hx)

/-- When find? locates an element, the list splits around its first
occurrence and updateFirst rewrites exactly that occurrence. -/
theorem updateFirst_decomp {α} {q : α → Bool} {g : α → α} {l : List α} {a : α}
    (h : l.find? q = some a) :
    ∃ l1 l2, l = l1 ++ a :: l2 ∧ (∀ x ∈ l1, q x = false) ∧ q a = true ∧
      updateFirst q g l = l1 ++ g a :: l2 := by
  induction l with
  | nil => simp at h
  | cons b t ih =>
      cases hqb : q b with
      | true =>
          rw [List.find?_cons_of_pos _ hqb] at h
          obtain rfl : b = a := by injection h
          exact ⟨[], t, by simp, by simp, hqb, by simp [updateFirst, hqb]⟩
      | false =>
          have hqb' : ¬(q b = true) := by simp [hqb]
          rw [List.find?_cons_of_neg _ hqb'] at h
          obtain ⟨l1, l2, hl, hall, hqa, hupd⟩ := ih h
          refine ⟨b :: l1, l2, by simp [hl], ?_, hqa, ?_⟩
          · intro x hx
            rcases List.mem_cons.mp hx with rfl | hx
            · exact hqb
            · exact hall x hx
          · simp [updateFirst, hqb, hupd]

/-- A list in which no element satisfies the predicate is unchanged by
updateFirst. -/
theorem updateFirst_of_all_false {α} {q : α → Bool} {g : α → α} {l : List α}
    (h : ∀ x ∈ l, q x = false) : updateFirst q g l = l := by
  induction l with
  | nil => rfl
  | cons b t ih =>
      have hb : q b = false := h b (List.mem_cons_self b t)
      simp [updateFirst, hb, ih fun x hx => h x (List.mem_cons_of_mem b hx)]

/-- If the update preserves the predicate, updateFirst preserves any. -/
theorem any_updateFirst {α} {q : α → Bool} {g : α → α}
    (hq : ∀ x, q (g x) = q x) (l : List α) :
    (updateFirst q g l).any q = l.any q := by
  induction l with
  | nil => rfl
  | cons b t ih =>
      cases hqb : q b with
      | true => simp [updateFirst, hqb, hq b]
      | false => simp [updateFirst, hqb, ih]

/-- An idempotent predicate-preserving update makes updateFirst
idempotent. -/
theorem updateFirst_updateFirst {α} {q : α → Bool} {g : α → α}
    (hq : ∀ x, q (g x) = q x) (hg : ∀ x, g (g x) = g x) (l : List α) :
    updateFirst q g (updateFirst q g l) = updateFirst q g l := by
  induction l with
  | nil => rfl
  | cons b t ih =>
      cases hqb : q b with
      | true => simp [updateFirst, hqb, hq b, hg b]
      | false => simp [updateFirst, hqb, ih]

/-- After updating the first match of a predicate-preserving update,
find? returns the updated element. -/
theorem find?_updateFirst {α} {q : α → Bool} {g : α → α} {l : List α} {a : α}
    (hq : ∀ x, q (g x) = q x) (h : l.find? q = some a) :
    (updateFirst q g l).find? q = some (g a) := by
  obtain ⟨l1, l2, hl, hall, hqa, hupd⟩ := updateFirst_decomp (g := g) h
  rw [hupd, find?_append_left_none hall, List.find?_cons_of_pos]
  rw [hq a]; exact hqa

/-- Every element of an updated list is an original element or the
image of a matching original element. -/
theorem mem_updateFirst {α} {q : α → Bool} {g : α → α} {l : List α} {x : α}
    (h : x ∈ updateFirst q g l) :
    x ∈ l ∨ ∃ a, a ∈ l ∧ q a = true ∧ x = g a := by
  induction l with
  | nil => simp [updateFirst] at h
  | cons b t ih =>
      cases hqb : q b with
      | true =>
          simp only [updateFirst, hqb, if_pos] at h
          rcases List.mem_cons.mp h with rfl | hx
          · exact Or.inr ⟨b, List.mem_cons_self b t, hqb, rfl⟩
          · exact Or.inl (List.mem_cons_of_mem b hx)
      | false =>
          simp only [updateFirst, hqb, Bool.false_eq_true, if_false] at h
          rcases List.mem_cons.mp h with rfl | hx
          · exact Or.inl (List.mem_cons_self x t)
          · rcases ih hx with h1 | ⟨a, ha, hqa, rfl⟩
            · exact Or.inl (List.mem_cons_of_mem b h1)
            · exact Or.inr ⟨a, List.mem_cons_of_mem b ha, hqa, rfl⟩

/-- C1: evaluation of the code at the failing input — for a
freshly-created, still-disabled enrollment with secret S,
AuthService.verify_mfa rejects the code that the TOTP check with ±1
step skew accepts, because line 95 of app/services/auth.py also
requires is_enabled; consequently the enable flow of POST /mfa/verify
answers Invalid MFA code and the enrollment can never become enabled.
The no-enrollment part of the claim does hold: verify_mfa is false when
the user has no mfa_settings row. -/
theorem c1_verify_mfa_enabled_gate_code_bug :
    (verify_mfa
        (DB.mk [User.mk 1 "alice@x.com" "alice" (get_password_hash "pw" 0) true false false]
          [] [MFASettings.mk 1 1 "S" (some ["B1"]) false] [])
        (User.mk 1 "alice@x.com" "alice" (get_password_hash "pw" 0) true false false)
        (totpCode "S" (timeStep 0)) 0 = false)
    ∧ totpVerify "S" (totpCode "S" (timeStep 0)) 0 = true
    ∧ ((verify_mfa_endpoint
        (DB.mk [User.mk 1 "alice@x.com" "alice" (get_password_hash "pw" 0) true false false]
          [] [MFASettings.mk 1 1 "S" (some ["B1"]) false] [])
        (User.mk 1 "alice@x.com" "alice" (get_password_hash "pw" 0) true false false)
        (totpCode "S" (timeStep 0)) 0).1 = MfaVerifyResult.invalidMFACode)
    ∧ (verify_mfa (DB.mk [] [] [] [])
        (User.mk 1 "alice@x.com" "alice" (get_password_hash "pw" 0) true false false)
        "123456" 0 = false) := by decide

/-- C2: evaluation of the code at the failing input — for the
registered email the POST /reset-password response differs from the
response for an unregistered email, and it carries the raw reset token
value, so the response is not noninterfering in the
existence. -/
theorem c2_reset_password_response_leak_code_bug :
    ((reset_password_endpoint
        (DB.mk [User.mk 1 "alice@x.com" "alice" (get_password_hash "pw" 0) true false false]
          [] [] [])
        "alice@x.com" "TOK" 1 0).1
      ≠ (reset_password_endpoint (DB.mk [] [] [] []) "alice@x.com" "TOK" 1 0).1)
    ∧ ("reset_token", "TOK") ∈ (reset_password_endpoint
        (DB.mk [User.mk 1 "alice@x.com" "alice" (get_password_hash "pw" 0) true false false]
          [] [] [])
        "alice@x.com" "TOK" 1 0).1 := by decide

/-- C6: evaluation of the code at the failing input — invoking POST
/mfa/setup for an account that already has an mfa_settings row inserts
a second row for the same user_id (the endpoint never checks for an
existing enrollment and the schema has no uniqueness constraint on
user_id), breaking the at-most-one-enrollment invariant. -/
theorem c6_duplicate_enrollment_code_bug :
    ((setup_mfa_endpoint
        (DB.mk [User.mk 1 "alice@x.com" "alice" (get_password_hash "pw" 0) true false false]
          [] [MFASettings.mk 1 1 "S" (some []) false] [])
        (User.mk 1 "alice@x.com" "alice" (get_password_hash "pw" 0) true false false)
        2 "S2" ["c1"]).2.mfa.countP fun m => m.user_id == 1) = 2 := by decide

/-- C3 counterexample: revoking the same session token twice returns
true both times — the second call does not return false as claimed,
because the lookup of AuthService.revoke_session does not filter on the
active flag. -/
theorem c3_revoke_second_call_counterexample :
    (revoke_session
        (revoke_session
          (DB.mk [] [UserSession.mk 1 1 "t" "r" none none true 100] [] [])
          "t").2
        "t").1 = true := by decide

/-- C3 (amended): revoking flips the active
flag to false and returns true; revoking again on the same token
returns true again and leaves the state unchanged; revoking a token
with no matching session returns false and changes nothing; no table
other than sessions is touched. -/
theorem c3_revoke_session_amended (db : DB) (token : String) :
    ((revoke_session db token).1 = db.sessions.any (sessionMatches token))
    ∧ revoke_session (revoke_session db token).2 token
        = ((revoke_session db token).1, (revoke_session db token).2)
    ∧ (revoke_session db token).2.users = db.users
    ∧ (revoke_session db token).2.mfa = db.mfa
    ∧ (revoke_session db token).2.resetTokens = db.resetTokens
    ∧ ((revoke_session db token).1 = false → (revoke_session db token).2 = db)
    ∧ ((revoke_session db token).1 = true →
        ∃ s, s ∈ (revoke_session db token).2.sessions ∧
          s.session_token = token ∧ s.is_active = false) := by
  have hq : ∀ x : UserSession,
      sessionMatches token (deactivate x) = sessionMatches token x :=
    fun x => rfl
  have hg : ∀ x : UserSession, deactivate (deactivate x) = deactivate x :=
    fun x => rfl
  cases hany : db.sessions.any (sessionMatches token) with
  | false =>
      refine ⟨?_, ?_, ?_, ?_, ?_, ?_, ?_⟩ <;>
        simp [revoke_session, hany]
  | true =>
      have hr : revoke_session db token
          = (true, { db with
              sessions := updateFirst (sessionMatches token) deactivate
                db.sessions }) := by
        simp only [revoke_session, hany, if_true]
      have h2 : ((updateFirst (sessionMatches token) deactivate
          db.sessions).any (sessionMatches token)) = true := by
        rw [any_updateFirst hq]; exact hany
      refine ⟨by rw [hr], ?_, ?_, ?_, ?_, ?_, ?_⟩
      · rw [hr]
        simp only [revoke_session, h2, if_true,
          updateFirst_updateFirst hq hg]
      · rw [hr]
      · rw [hr]
      · rw [hr]
      · rw [hr]; intro h; cases h
      · intro _
        obtain ⟨x, hx, hpx⟩ := List.any_eq_true.mp hany
        have hfs : (db.sessions.find? (sessionMatches token)).isSome :=
          List.find?_isSome.mpr ⟨x, hx, hpx⟩
        obtain ⟨a, ha⟩ := Option.isSome_iff_exists.mp hfs
        obtain ⟨l1, l2, hl, hall, hqa, hupd⟩ :=
          updateFirst_decomp (g := deactivate) ha
        refine ⟨deactivate a, ?_, ?_, rfl⟩
        · rw [hr]
          simp [hupd]
        · have : a.session_token = token := by
            simpa [sessionMatches] using hqa
          simpa [deactivate] using this

/-- C3 witness: the amended behaviour evaluated on a store holding one
active session. -/
theorem c3_revoke_session_amended_witness :
    (revoke_session
        (revoke_session
          (DB.mk [] [UserSession.mk 1 1 "t" "r" none none true 100] [] [])
          "t").2 "t"
      = ((revoke_session
            (DB.mk [] [UserSession.mk 1 1 "t" "r" none none true 100] [] [])
            "t").1,
         (revoke_session
            (DB.mk [] [UserSession.mk 1 1 "t" "r" none none true 100] [] [])
            "t").2))
    ∧ ∃ s, s ∈ (revoke_session
          (DB.mk [] [UserSession.mk 1 1 "t" "r" none none true 100] [] [])
          "t").2.sessions ∧ s.session_token = "t" ∧ s.is_active = false := by
  have h := c3_revoke_session_amended
    (DB.mk [] [UserSession.mk 1 1 "t" "r" none none true 100] [] []) "t"
  exact ⟨h.2.1, h.2.2.2.2.2.2 (by decide)⟩

/-- C9 counterexample: an enrollment whose stored backup-code list is
the empty list — the state left behind once every code has been
consumed, persisted as the JSON text of an empty list, which is truthy —
makes the consume operation fail with InvalidBackupCode (400), not with
NotFound as the claim states for an account with no backup codes
left. -/
theorem c9_empty_backup_list_counterexample :
    ((verify_backup_code
        (DB.mk [] [] [MFASettings.mk 1 1 "S" (some []) true] [])
        (User.mk 1 "alice@x.com" "alice" (get_password_hash "pw" 0) true false false)
        "X").1 = BackupCodeResult.invalidBackupCode)
    ∧ ((verify_backup_code
        (DB.mk [] [] [MFASettings.mk 1 1 "S" (some []) true] [])
        (User.mk 1 "alice@x.com" "alice" (get_password_hash "pw" 0) true false false)
        "X").1 ≠ BackupCodeResult.notFound) := by decide

/-- C9 (amended): consuming a code that is a member of the current
duplicate-free set removes exactly that code and succeeds, and
consuming it a second time fails with InvalidBackupCode leaving the
state unchanged; consuming a code not in the set fails with
InvalidBackupCode and changes nothing; NotFound is returned exactly
when the user has no mfa_settings row or its backup_codes column is
NULL/empty-string — an enrollment whose stored list is empty (the JSON
text of an empty list, e.g. after all codes were consumed) instead
fails with InvalidBackupCode. -/
theorem c9_backup_codes_single_use_amended (db : DB) (user : User)
    (code : String) :
    (db.mfa.find? (mfaUserMatches user.id) = none →
        verify_backup_code db user code = (BackupCodeResult.notFound, db))
    ∧ (∀ m, db.mfa.find? (mfaUserMatches user.id) = some m →
        m.backup_codes = none →
        verify_backup_code db user code = (BackupCodeResult.notFound, db))
    ∧ (∀ m codes, db.mfa.find? (mfaUserMatches user.id) = some m →
        m.backup_codes = some codes → code ∉ codes →
        verify_backup_code db user code
          = (BackupCodeResult.invalidBackupCode, db))
    ∧ (∀ m codes, db.mfa.find? (mfaUserMatches user.id) = some m →
        m.backup_codes = some codes → code ∈ codes → codes.Nodup →
        (verify_backup_code db user code).1 = BackupCodeResult.ok
        ∧ (verify_backup_code db user code).2.mfa.find?
            (mfaUserMatches user.id)
            = some (setBackupCodes (codes.erase code) m)
        ∧ code ∉ codes.erase code
        ∧ verify_backup_code (verify_backup_code db user code).2 user code
            = (BackupCodeResult.invalidBackupCode,
               (verify_backup_code db user code).2)
        ∧ (verify_backup_code db user code).2.users = db.users
        ∧ (verify_backup_code db user code).2.sessions = db.sessions
        ∧ (verify_backup_code db user code).2.resetTokens
            = db.resetTokens) := by
  refine ⟨?_, ?_, ?_, ?_⟩
  · intro h; simp [verify_backup_code, h]
  · intro m hm hbc; simp [verify_backup_code, hm, hbc]
  · intro m codes hm hbc hnot; simp [verify_backup_code, hm, hbc, hnot]
  · intro m codes hm hbc hmem hnd
    have hr : verify_backup_code db user code
        = (BackupCodeResult.ok,
           { db with mfa := updateFirst (mfaUserMatches user.id)
                              (setBackupCodes (codes.erase code)) db.mfa }) := by
      simp [verify_backup_code, hm, hbc, hmem]
    have hfind : (updateFirst (mfaUserMatches user.id)
        (setBackupCodes (codes.erase code)) db.mfa).find?
          (mfaUserMatches user.id)
        = some (setBackupCodes (codes.erase code) m) :=
      find?_updateFirst (fun _ => rfl) hm
    have hne : code ∉ codes.erase code := by
      intro hc
      exact ((hnd.mem_erase_iff).mp hc).1 rfl
    refine ⟨by rw [hr], by rw [hr]; exact hfind, hne, ?_, by rw [hr],
      by rw [hr], by rw [hr]⟩
    rw [hr]
    simp [verify_backup_code, hfind, setBackupCodes, hne]

/-- C9 witness: a two-code set where consuming code A succeeds once and
fails the second time. -/
theorem c9_backup_codes_single_use_amended_witness :
    ((verify_backup_code
        (DB.mk [] [] [MFASettings.mk 1 1 "S" (some ["A", "B"]) true] [])
        (User.mk 1 "alice@x.com" "alice" (get_password_hash "pw" 0) true false false)
        "A").1 = BackupCodeResult.ok)
    ∧ verify_backup_code
        (verify_backup_code
          (DB.mk [] [] [MFASettings.mk 1 1 "S" (some ["A", "B"]) true] [])
          (User.mk 1 "alice@x.com" "alice" (get_password_hash "pw" 0) true false false)
          "A").2
        (User.mk 1 "alice@x.com" "alice" (get_password_hash "pw" 0) true false false)
        "A"
      = (BackupCodeResult.invalidBackupCode,
         (verify_backup_code
            (DB.mk [] [] [MFASettings.mk 1 1 "S" (some ["A", "B"]) true] [])
            (User.mk 1 "alice@x.com" "alice" (get_password_hash "pw" 0) true false false)
            "A").2) := by
  have h := (c9_backup_codes_single_use_amended
      (DB.mk [] [] [MFASettings.mk 1 1 "S" (some ["A", "B"]) true] [])
      (User.mk 1 "alice@x.com" "alice" (get_password_hash "pw" 0) true false false)
      "A").2.2.2
    (MFASettings.mk 1 1 "S" (some ["A", "B"]) true) ["A", "B"]
    (by decide) rfl (by decide) (by decide)
  exact ⟨h.1, h.2.2.2.1⟩

/-- C7: verifying a token issued with kind access while expecting kind
refresh fails, and vice versa, at every verification instant; the
subject is returned only on a kind match (test_verify_token_wrong_type,
spec §4.2 and testable property 4). -/
theorem c7_token_kind_confusion_rejected (sub : String) (ttl now t : Int) :
    verify_token (create_access_token sub now (some ttl)) TokenType.refresh t = none ∧
    verify_token (create_refresh_token sub now (some ttl)) TokenType.access t = none ∧
    ∀ k expected : TokenType, ∀ e : Int,
      (verify_token (Token.signed sub k e) expected t).isSome = true → k = expected := by
  refine ⟨rfl, rfl, ?_⟩
  intro k expected e h
  by_cases hk : k = expected
  · exact hk
  · simp [verify_token, hk] at h

/-- C7 witness at a concrete subject, ttl and instant. -/
theorem c7_token_kind_confusion_rejected_witness :
    verify_token (create_access_token "123" 0 (some 1800)) TokenType.refresh 5 = none :=
  (c7_token_kind_confusion_rejected "123" 1800 0 5).1

/-- C8: the issue/verify round-trip — a token issued for a subject with
a positive ttl, verified with the same expected kind before the ttl has
elapsed, succeeds and returns the same subject (spec testable
property 3). -/
theorem c8_issue_verify_round_trip (sub : String) (ttl now t : Int)
    (_hpos : 0 < ttl) (hbefore : t < now + ttl) :
    verify_token (create_access_token sub now (some ttl)) TokenType.access t
      = some sub ∧
    verify_token (create_refresh_token sub now (some ttl)) TokenType.refresh t
      = some sub := by
  constructor
  · simp [verify_token, create_access_token, hbefore]
  · simp [verify_token, create_refresh_token, hbefore]

/-- C8 witness: round-trip at subject 123, ttl 1800 seconds, verified
five seconds after issue. -/
theorem c8_issue_verify_round_trip_witness :
    verify_token (create_access_token "123" 0 (some 1800)) TokenType.access 5
      = some "123" :=
  (c8_issue_verify_round_trip "123" 1800 0 5 (by decide) (by decide)).1

/-- C10: hashing round-trip and salt freshness — every password
verifies against its own hash, and two calls on the same password with
distinct fresh salts produce distinct digests, both of which still
verify (spec §4.1 and testable property 1;
test_same_password_different_hashes). -/
theorem c10_hash_round_trip_and_salt_freshness (p : String) (s1 s2 : Nat)
    (hs : s1 ≠ s2) :
    verify_password p (get_password_hash p s1) = true ∧
    verify_password p (get_password_hash p s2) = true ∧
    get_password_hash p s1 ≠ get_password_hash p s2 := by
  refine ⟨?_, ?_, ?_⟩
  · simp [verify_password, get_password_hash]
  · simp [verify_password, get_password_hash]
  · intro h
    exact hs (congrArg Digest.salt h)

/-- C10 witness at a concrete password and two concrete salts. -/
theorem c10_hash_round_trip_and_salt_freshness_witness :
    verify_password "pw" (get_password_hash "pw" 1) = true ∧
    verify_password "pw" (get_password_hash "pw" 2) = true ∧
    get_password_hash "pw" 1 ≠ get_password_hash "pw" 2 :=
  c10_hash_round_trip_and_salt_freshness "pw" 1 2 (by decide)

/-- C4: password-reset confirmation — when no unused, unexpired row
matches the token the operation fails with InvalidOrExpiredToken; any
failure leaves the state unchanged; on success (matching row found, its
account found, token values unique as the unique index of the schema
guarantees) the stored hash of the account becomes the hash of the new
password in the same step that marks the token used, the new password
verifies while any other no longer does, and a second confirmation with
the same token fails with InvalidOrExpiredToken without changing
state. -/
theorem c4_confirm_password_reset_spec (db : DB) (token newPassword : String)
    (now : Int) (salt : Nat) :
    (db.resetTokens.find? (resetPred token now) = none →
        confirm_password_reset db token newPassword now salt
          = (ConfirmResult.invalidOrExpiredToken, db))
    ∧ ((confirm_password_reset db token newPassword now salt).1
          ≠ ConfirmResult.ok →
        (confirm_password_reset db token newPassword now salt).2 = db)
    ∧ (∀ r u, db.resetTokens.find? (resetPred token now) = some r →
        db.users.find? (userIdMatches r.user_id) = some u →
        db.resetTokens.countP (fun x => x.token == token) = 1 →
        (confirm_password_reset db token newPassword now salt).1
            = ConfirmResult.ok
        ∧ (confirm_password_reset db token newPassword now salt).2.users.find?
            (userIdMatches r.user_id)
            = some (setHash (get_password_hash newPassword salt) u)
        ∧ verify_password newPassword (get_password_hash newPassword salt)
            = true
        ∧ (∀ old, old ≠ newPassword →
            verify_password old (get_password_hash newPassword salt) = false)
        ∧ (∀ pw2 salt2,
            confirm_password_reset
                (confirm_password_reset db token newPassword now salt).2
                token pw2 now salt2
              = (ConfirmResult.invalidOrExpiredToken,
                 (confirm_password_reset db token newPassword now salt).2))) := by
  refine ⟨?_, ?_, ?_⟩
  · intro h; simp [confirm_password_reset, h]
  · cases h1 : db.resetTokens.find? (resetPred token now) with
    | none => intro _; simp [confirm_password_reset, h1]
    | some r =>
        cases h2 : db.users.find? (userIdMatches r.user_id) with
        | none => intro _; simp [confirm_password_reset, h1, h2]
        | some u =>
            intro hne; exfalso; apply hne
            simp [confirm_password_reset, h1, h2]
  · intro r u h1 h2 hcount
    have hr : confirm_password_reset db token newPassword now salt
        = (ConfirmResult.ok,
           { db with
               users := updateFirst (userIdMatches r.user_id)
                 (setHash (get_password_hash newPassword salt)) db.users,
               resetTokens := updateFirst (resetPred token now)
                 markUsed db.resetTokens }) := by
      simp [confirm_password_reset, h1, h2]
    obtain ⟨l1, l2, hl, hall, hqa, hupd⟩ :=
      updateFirst_decomp (g := markUsed) h1
    have hqa' := hqa
    simp only [resetPred, Bool.and_eq_true, decide_eq_true_eq] at hqa'
    have hrt : (r.token == token) = true := hqa'.1.1
    have hcount0 : (l1.countP fun x => x.token == token) = 0 ∧
        (l2.countP fun x => x.token == token) = 0 := by
      rw [hl, List.countP_append, List.countP_cons] at hcount
      simp only [hrt, if_true] at hcount
      constructor <;> omega
    have hnone : ((updateFirst (resetPred token now) markUsed
        db.resetTokens).find? (resetPred token now)) = none := by
      rw [hupd]
      apply List.find?_eq_none.mpr
      intro x hx habs
      simp only [resetPred, Bool.and_eq_true, decide_eq_true_eq] at habs
      rcases List.mem_append.mp hx with hx1 | hx2
      · exact (List.countP_eq_zero.mp hcount0.1) x hx1 habs.1.1
      · rcases List.mem_cons.mp hx2 with rfl | hx3
        · simp [markUsed] at habs
        · exact (List.countP_eq_zero.mp hcount0.2) x hx3 habs.1.1
    refine ⟨by rw [hr], ?_, ?_, ?_, ?_⟩
    · rw [hr]
      exact find?_updateFirst (fun _ => rfl) h2
    · simp [verify_password, get_password_hash]
    · intro old hne
      simp only [verify_password, get_password_hash]
      exact beq_eq_false_iff_ne.mpr hne
    · intro pw2 salt2
      rw [hr]
      simp [confirm_password_reset, hnone]

/-- C4 witness: a store holding one account and one fresh reset token;
confirmation succeeds, rehashes, and a replayed confirmation fails. -/
theorem c4_confirm_password_reset_spec_witness :
    ((confirm_password_reset
        (DB.mk [User.mk 1 "alice@x.com" "alice" (get_password_hash "old" 0) true false false]
          [] [] [PasswordResetToken.mk 1 1 "RT" 3600 false])
        "RT" "newpw" 0 7).1 = ConfirmResult.ok)
    ∧ verify_password "newpw" (get_password_hash "newpw" 7) = true
    ∧ verify_password "old" (get_password_hash "newpw" 7) = false
    ∧ confirm_password_reset
        (confirm_password_reset
          (DB.mk [User.mk 1 "alice@x.com" "alice" (get_password_hash "old" 0) true false false]
            [] [] [PasswordResetToken.mk 1 1 "RT" 3600 false])
          "RT" "newpw" 0 7).2
        "RT" "again" 0 9
      = (ConfirmResult.invalidOrExpiredToken,
         (confirm_password_reset
            (DB.mk [User.mk 1 "alice@x.com" "alice" (get_password_hash "old" 0) true false false]
              [] [] [PasswordResetToken.mk 1 1 "RT" 3600 false])
            "RT" "newpw" 0 7).2) := by
  have h := (c4_confirm_password_reset_spec
      (DB.mk [User.mk 1 "alice@x.com" "alice" (get_password_hash "old" 0) true false false]
        [] [] [PasswordResetToken.mk 1 1 "RT" 3600 false])
      "RT" "newpw" 0 7).2.2
    (PasswordResetToken.mk 1 1 "RT" 3600 false)
    (User.mk 1 "alice@x.com" "alice" (get_password_hash "old" 0) true false false)
    (by decide) (by decide) (by decide)
  exact ⟨h.1, h.2.2.1, h.2.2.2.1 "old" (by decide), h.2.2.2.2 "again" 9⟩

/-- C5: logout touches only the session store — the users table is
unchanged; the JWT access and refresh tokens issued at login remain
verifiable afterwards (verify_token is a pure function of the token and
the clock); the refresh endpoint reads only the users table, so its
outcome is identical on any two states agreeing on users; hence after
revoking any session token, presenting a still-fresh refresh JWT for an
existing active account yields a fresh access/refresh token pair. -/
theorem c5_revoked_session_does_not_gate_refresh (db : DB) (tok s : String)
    (uid : Nat) (u : User) (e now : Int)
    (hparse : parseNat? s = some uid)
    (hfind : db.users.find? (userIdMatches uid) = some u)
    (hactive : u.is_active = true)
    (hexp : now < e) :
    verify_token (Token.signed s TokenType.refresh e) TokenType.refresh now
        = some s
    ∧ (∀ sub : String, ∀ t0 : Int, now < t0 + ACCESS_TOKEN_EXPIRE_MINUTES * 60 →
        verify_token (create_access_token sub t0 none) TokenType.access now
          = some sub)
    ∧ (∀ db2 : DB, db2.users = db.users →
        refresh_endpoint db2 (Token.signed s TokenType.refresh e) now
          = refresh_endpoint db (Token.signed s TokenType.refresh e) now)
    ∧ (logout_endpoint db tok).2.users = db.users
    ∧ refresh_endpoint (logout_endpoint db tok).2
        (Token.signed s TokenType.refresh e) now
      = RefreshResult.ok (create_access_token (toString u.id) now none)
          (create_refresh_token (toString u.id) now none) := by
  have husers : (logout_endpoint db tok).2.users = db.users := by
    simp only [logout_endpoint, revoke_session]
    split <;> rfl
  refine ⟨?_, ?_, ?_, husers, ?_⟩
  · simp [verify_token, hexp]
  · intro sub t0 h
    simp [verify_token, create_access_token, h]
  · intro db2 hu
    unfold refresh_endpoint
    rw [hu]
  · unfold refresh_endpoint
    rw [husers]
    simp [verify_token, hexp, hparse, hfind, hactive]

/-- C5 witness: one active account, one active session; after logging
the session out, its refresh JWT still mints a fresh token pair. -/
theorem c5_revoked_session_does_not_gate_refresh_witness :
    (logout_endpoint
        (DB.mk [User.mk 1 "alice@x.com" "alice" (get_password_hash "pw" 0) true false false]
          [UserSession.mk 1 1 "t" "r" none none true 604800] [] [])
        "t").2.users
      = (DB.mk [User.mk 1 "alice@x.com" "alice" (get_password_hash "pw" 0) true false false]
          [UserSession.mk 1 1 "t" "r" none none true 604800] [] []).users
    ∧ refresh_endpoint
        (logout_endpoint
          (DB.mk [User.mk 1 "alice@x.com" "alice" (get_password_hash "pw" 0) true false false]
            [UserSession.mk 1 1 "t" "r" none none true 604800] [] [])
          "t").2
        (Token.signed "1" TokenType.refresh 604800) 0
      = RefreshResult.ok (create_access_token "1" 0 none)
          (create_refresh_token "1" 0 none) := by
  have h := c5_revoked_session_does_not_gate_refresh
      (DB.mk [User.mk 1 "alice@x.com" "alice" (get_password_hash "pw" 0) true false false]
        [UserSession.mk 1 1 "t" "r" none none true 604800] [] [])
      "t" "1" 1
      (User.mk 1 "alice@x.com" "alice" (get_password_hash "pw" 0) true false false)
      604800 0 (by decide) (by decide) rfl (by decide)
  exact ⟨h.2.2.2.1, h.2.2.2.2⟩

end FastapiAuthen
